import Mathlib

/-!
# Verification of the stack-to-openvdb export pipeline

Shallow embedding of `src/export.py`: the volume assembler and intensity
normalizer (`bioformats_to_ndarray_zstack_timeseries`), the voxel volume
encoder (`_ndarray_to_vtk_image`), the voxel grid writer
(`_save_vtk_image_to_disk`), the configuration reader (`read_config`) and
the export driver (`__main__` loop).

Numeric modelling choices:
* numpy `uint16` / `uint8` samples are natural numbers, reduced `% 2^16`
  resp. `% 2^8` where the dtype forces a wrap;
* numpy `float64` intermediates are modelled exactly: every value that
  occurs in the normalization line is a nonnegative dyadic rational, kept
  as a numerator/denominator pair of naturals, and each division is
  rounded to 53 significant bits with round-to-nearest, ties-to-even —
  the IEEE-754 binary64 rule that numpy float64 division follows.
  (No overflow, underflow or subnormal can occur in the ranges involved:
  all quotients lie between 2^-16 and 2^25.)
-/

/-- A nonnegative binary64 value, represented exactly as the fraction
`num / den`.  The results produced by `roundD64` always have `den` a
power of two, so the representation is exact for every double that the
pipeline can produce. -/
structure D64 where
  num : ℕ
  den : ℕ
deriving DecidableEq, Repr

/-- Fuel-driven base-2 logarithm: `log2fuel f n = ⌊log₂ n⌋` whenever
`n ≥ 1` and `f ≥ log₂ n`.  Written with explicit fuel so that the kernel
can evaluate it (the library function `Nat.log2` is defined by well-founded
recursion and does not reduce in kernel computations). -/
def log2fuel : ℕ → ℕ → ℕ
  | 0, _ => 0
  | f + 1, n => if n ≤ 1 then 0 else log2fuel f (n / 2) + 1

/-- Round the real number `n / d` (with `n, d > 0`) to the nearest
binary64 value, ties to even, returning it as an exact fraction.
`128` units of fuel suffice for every magnitude the pipeline produces
(all numerators and denominators stay far below `2^128`). -/
def roundD64 (n d : ℕ) : D64 :=
  if n = 0 ∨ d = 0 then ⟨0, 1⟩
  else
    let L := log2fuel 128 n
    let M := log2fuel 128 d
    -- e = ⌊log₂ (n/d)⌋; it is L - M or L - M - 1
    let ge : Bool := if M ≤ L then decide (d * 2 ^ (L - M) ≤ n) else decide (d ≤ n * 2 ^ (M - L))
    let e : ℤ := if ge then (L : ℤ) - M else (L : ℤ) - M - 1
    -- round the scaled significand n/d · 2^(52-e) to the nearest integer,
    -- ties to even; it lies in [2^52, 2^53]
    let N := n * 2 ^ (52 - e).toNat
    let D := d * 2 ^ (e - 52).toNat
    let q := N / D
    let r := N % D
    let m := if 2 * r < D then q else if D < 2 * r then q + 1 else if q % 2 = 0 then q else q + 1
    if 52 ≤ e then ⟨m * 2 ^ (e - 52).toNat, 1⟩ else ⟨m, 2 ^ (52 - e).toNat⟩

/-- IEEE-754 binary64 division of nonnegative doubles held as exact
fractions: form the exact quotient and round it to 53 bits. -/
def fdiv (a b : D64) : D64 :=
  roundD64 (a.num * b.den) (a.den * b.num)

/-- Truncation of a nonnegative double toward zero (the C cast that
numpy `astype` performs on a `float64`): for a nonnegative fraction
this is the floor, i.e. natural division. -/
def truncD64 (x : D64) : ℕ :=
  x.num / x.den

-- Cross-checks of the binary64 model against independently computed
-- IEEE-754 results (exact integer/denominator pairs of the doubles
-- `4/255.0`, `1/(4/255.0)`, `33/255.0` and `33/(33/255.0)`).
example : (fdiv ⟨4, 1⟩ ⟨255, 1⟩).num * 18014398509481984 =
    282578800148737 * (fdiv ⟨4, 1⟩ ⟨255, 1⟩).den := by decide
example : (fdiv ⟨1, 1⟩ (fdiv ⟨4, 1⟩ ⟨255, 1⟩)).num * 4 =
    255 * (fdiv ⟨1, 1⟩ (fdiv ⟨4, 1⟩ ⟨255, 1⟩)).den := by decide
example : (fdiv ⟨33, 1⟩ ⟨255, 1⟩).num * 36028797018963968 =
    4662550202454161 * (fdiv ⟨33, 1⟩ ⟨255, 1⟩).den := by decide
example : (fdiv ⟨33, 1⟩ (fdiv ⟨33, 1⟩ ⟨255, 1⟩)).num * 35184372088832 =
    8972014882652159 * (fdiv ⟨33, 1⟩ (fdiv ⟨33, 1⟩ ⟨255, 1⟩)).den := by decide
example : truncD64 (fdiv ⟨33, 1⟩ (fdiv ⟨33, 1⟩ ⟨255, 1⟩)) = 254 := by decide
example : truncD64 (fdiv ⟨1, 1⟩ (fdiv ⟨4, 1⟩ ⟨255, 1⟩)) = 63 := by decide

/-! ## The 4D volume and the intensity normalizer (`export.py` lines 43–58) -/

/-- A 4D numpy array `(frames, z, y, x)` of natural-number samples, kept
as its shape together with the densely packed C-order (row-major) flat
data.  Mirrors the `image` ndarray of
`bioformats_to_ndarray_zstack_timeseries`. -/
structure NDArray4 where
  d0 : ℕ
  d1 : ℕ
  d2 : ℕ
  d3 : ℕ
  data : List ℕ
deriving DecidableEq, Repr

/-- The `np.min` over the flat data (the empty case never occurs in the
claims, which all assume a populated volume). -/
def listMin : List ℕ → ℕ
  | [] => 0
  | x :: xs => xs.foldl min x

/-- The `np.max` over the flat data. -/
def listMax : List ℕ → ℕ
  | [] => 0
  | x :: xs => xs.foldl max x

/-- Line 56 of `export.py`:
`image = ((image - image.min()) / (image.ptp() / 255.0)).astype(np.uint8)`.

* `image.min()` / `image.ptp()` are the global minimum and peak-to-peak
  range of the uint16 volume; `image - image.min()` is exact uint16
  arithmetic (no underflow, since the minimum is subtracted).
* `image.ptp() / 255.0` and the element-wise division are float64
  operations, modelled exactly by `fdiv`.
* `.astype(np.uint8)` is a C cast: truncation toward zero, reduced
  `% 2^8` (all values the claims touch stay below 256).
* When `image.ptp() == 0` the element-wise division is `0.0 / 0.0`,
  which numpy evaluates to NaN (with a RuntimeWarning, not an
  exception), and the uint8 cast of NaN is undefined behaviour; the
  model returns `none` for the whole volume in that case, standing for
  "no defined result". -/
def normalize_uint8 (image : NDArray4) : Option NDArray4 :=
  let lo := listMin image.data
  let ptp := listMax image.data - lo
  if ptp = 0 then none
  else
    let scale := fdiv ⟨ptp, 1⟩ ⟨255, 1⟩
    some { image with data := image.data.map fun v => truncD64 (fdiv ⟨v - lo, 1⟩ scale) % 2 ^ 8 }

/-- Round-half-to-even of the fraction `n / d` to a natural number
(the Python builtin `round`).  Used only to state the formula claimed
by the spec. -/
def roundFracHalfEven (n d : ℕ) : ℕ :=
  let q := n / d
  let r := n % d
  if 2 * r < d then q else if d < 2 * r then q + 1 else if q % 2 = 0 then q else q + 1

/-- The normalization step as the words of the spec describe it — identical
to `normalize_uint8` except that the float64 quotient is *rounded* to
the nearest integer instead of truncated.  Stated only to compare the
claim of the spec against the implementation. -/
def normalize_uint8_specRound (image : NDArray4) : Option NDArray4 :=
  let lo := listMin image.data
  let ptp := listMax image.data - lo
  if ptp = 0 then none
  else
    let scale := fdiv ⟨ptp, 1⟩ ⟨255, 1⟩
    some { image with data := image.data.map fun v =>
      roundFracHalfEven ((v - lo) * scale.den) scale.num % 2 ^ 8 }

/-! ## The volume assembler (`export.py` lines 19–58) -/

/-- An ImageJ ROI as read by `roifile.ImagejRoi.fromfile`: rectangle
bounds plus the embedded time position.  The bounds in the source may be
floating; they are modelled at integer values (`int()` truncation is
then the identity, and the width/height expressions
`abs(roi.right - roi.left)`, `abs(roi.top - roi.bottom)` are computed
exactly). -/
structure ImagejRoi where
  left : ℤ
  right : ℤ
  top : ℤ
  bottom : ℤ
  t_position : ℕ
deriving DecidableEq, Repr

/-- The image source adapter (`fileops.image.OMEImageFile`), reduced to
the interface the export pipeline consumes: series geometry plus random
access to one uint16 sample per `(channel, z, frame, row, column)`
coordinate (the source pair `ix_at`/`image` composed with 2D pixel
lookup).  Coordinates are integers because a ROI may place the crop
window at negative offsets. -/
structure OMEImageFile where
  width : ℕ
  height : ℕ
  zstacks : List ℕ
  n_frames : ℕ
  n_channels : ℕ
  um_per_pix : ℚ
  um_per_z : ℚ
  pixel : ℕ → ℕ → ℕ → ℤ → ℤ → ℕ

/-- The plane-gathering loop of lines 43–53: for every frame and every
z-slice, read the plane at `(channel, z, frame)`, crop it to the window
`[y0 : y0+h, x0 : x0+w]`, and pack everything in C order into the 4D
buffer.  The `% 2^16` reflects the `dtype=np.uint16` target buffers. -/
def readCropped (img_struct : OMEImageFile) (frames : List ℕ) (channel : ℕ)
    (h w : ℕ) (y0 x0 : ℤ) : List ℕ :=
  frames.flatMap fun frame =>
    img_struct.zstacks.flatMap fun z =>
      (List.range h).flatMap fun i =>
        (List.range w).map fun j =>
          img_struct.pixel channel z frame (y0 + i) (x0 + j) % 2 ^ 16

/-- Lines 26–53 of `bioformats_to_ndarray_zstack_timeseries`: derive the
crop rectangle (`w = abs(roi.right - roi.left)`,
`h = abs(roi.top - roi.bottom)`, `x0 = int(roi.left)`,
`y0 = int(roi.top)`, or the full frame when `roi is None`) and allocate
and fill the `(len(frames), len(zstacks), h, w)` uint16 volume. -/
def assembleRaw (img_struct : OMEImageFile) (frames : List ℕ)
    (roi : Option ImagejRoi) (channel : ℕ) : NDArray4 :=
  match roi with
  | some roi =>
      let w := (roi.right - roi.left).natAbs
      let h := (roi.top - roi.bottom).natAbs
      { d0 := frames.length, d1 := img_struct.zstacks.length, d2 := h, d3 := w
        data := readCropped img_struct frames channel h w roi.top roi.left }
  | none =>
      { d0 := frames.length, d1 := img_struct.zstacks.length
        d2 := img_struct.height, d3 := img_struct.width
        data := readCropped img_struct frames channel img_struct.height img_struct.width 0 0 }

/-- The function `bioformats_to_ndarray_zstack_timeseries` (lines 19–58): assemble
the uint16 timeseries volume, then normalize it across the whole series
down to uint8.  `none` stands for the undefined result of normalizing a
zero-range volume. -/
def bioformats_to_ndarray_zstack_timeseries (img_struct : OMEImageFile) (frames : List ℕ)
    (roi : Option ImagejRoi := none) (channel : ℕ := 0) : Option NDArray4 :=
  normalize_uint8 (assembleRaw img_struct frames roi channel)

/-! ## The voxel volume encoder (`export.py` lines 61–80) -/

/-- A 3D numpy array `(z, y, x)` — the slice of one frame of the 4D volume —
as shape plus densely packed C-order flat data. -/
structure NDArray3 where
  d0 : ℕ
  d1 : ℕ
  d2 : ℕ
  data : List ℕ
deriving DecidableEq, Repr

/-- The scalar types `vtkImageImport` can be told to expect; the
pipeline only ever selects `unsignedChar`
(`SetDataScalarTypeToUnsignedChar`). -/
inductive VtkScalarType
  | unsignedChar
  | unsignedShort
  | double
deriving DecidableEq, Repr

/-- The observable state a `vtkImageImport` object carries after the
configuration calls in `_ndarray_to_vtk_image`: the copied byte buffer
and its declared length (`CopyImportVoidPointer`), the scalar type,
component count and scalar name, both extents, and the physical
spacing. -/
structure VtkImageImportState where
  importBuffer : List ℕ
  importSize : ℕ
  scalarType : VtkScalarType
  numberOfScalarComponents : ℕ
  scalarArrayName : String
  dataExtent : ℕ × ℕ × ℕ × ℕ × ℕ × ℕ
  wholeExtent : ℕ × ℕ × ℕ × ℕ × ℕ × ℕ
  dataSpacing : ℚ × ℚ × ℚ
deriving DecidableEq, Repr

/-- The function `_ndarray_to_vtk_image` (lines 61–80).  The source unpacks the shape
as `ztot, col, row = data.shape` — so its local `col` holds the row
count (`d1`) and its local `row` holds the column count (`d2`) — and
then declares the extent `(1, row, 1, col, 1, ztot)`.  `data.tobytes()`
on a C-contiguous uint8 array yields exactly the flat element list, one
byte per sample, so the buffer is modelled by `data.data` itself. -/
def ndarray_to_vtk_image (data : NDArray3) (um_per_pix : ℚ := 1) (um_per_z : ℚ := 1) :
    VtkImageImportState :=
  let ztot := data.d0
  let col := data.d1
  let row := data.d2
  let data_string := data.data
  { importBuffer := data_string
    importSize := data_string.length
    scalarType := VtkScalarType.unsignedChar
    numberOfScalarComponents := 1
    scalarArrayName := "density"
    dataExtent := (1, row, 1, col, 1, ztot)
    wholeExtent := (1, row, 1, col, 1, ztot)
    dataSpacing := (um_per_pix, um_per_pix, um_per_z) }

/-! ## The voxel grid writer (`export.py` lines 83–89) -/

/-- The file system visible to the writer: a map from path names to the
byte content of the file stored there (`none` = no file at that path). -/
def FileSys : Type := String → Option (List ℕ)

/-- The function `_save_vtk_image_to_disk` (lines 83–89): configure a
`vtkOpenVDBWriter` on the output port of the image, delete any file already
present at `filename` (`os.path.exists` / `os.remove`), set the file
name and run `Update()`, which serializes the image to `filename`.
The external OpenVDB serialization is abstracted as the function
`vdbSerialize` from image state to file bytes. -/
def save_vtk_image_to_disk (vdbSerialize : VtkImageImportState → List ℕ)
    (fs : FileSys) (vtk_image : VtkImageImportState) (filename : String) : FileSys :=
  let fs1 : FileSys :=
    if (fs filename).isSome then (fun p => if p = filename then none else fs p) else fs
  fun p => if p = filename then some (vdbSerialize vtk_image) else fs1 p

/-- The same call when the underlying serialization stops after writing
`k` bytes (disk full, crash, …).  The source gives the writer the final
destination path directly — there is no temporary file and no rename —
so the partially written bytes sit at `filename` itself. -/
def save_vtk_image_to_disk_failing (vdbSerialize : VtkImageImportState → List ℕ)
    (fs : FileSys) (vtk_image : VtkImageImportState) (filename : String) (k : ℕ) : FileSys :=
  let fs1 : FileSys :=
    if (fs filename).isSome then (fun p => if p = filename then none else fs p) else fs
  fun p => if p = filename then some ((vdbSerialize vtk_image).take k) else fs1 p

/-! ## The configuration reader (`export.py` lines 100–137) -/

/-- A relative-or-absolute path, as much of `pathlib.Path` as
`read_config` exercises: `is_absolute()` and the `/` join. -/
structure SPath where
  isAbs : Bool
  comps : List String
deriving DecidableEq, Repr

/-- The `/` join of `pathlib` for a relative right operand. -/
def SPath.join (p q : SPath) : SPath :=
  ⟨p.isAbs, p.comps ++ q.comps⟩

/-- A `DATA.frame` or `DATA.channel` entry: the literal string `all` or
an integer. -/
inductive AllOrIdx
  | all
  | idx (n : ℕ)
deriving DecidableEq, Repr

/-- The `[DATA]` section fields `read_config` consumes, after the
`configparser` string parsing (which is not itself under test):
`series`, `frame`, `channel`, `image`, the optional `ROI` path, and the
optional `um_per_z` override. -/
structure ConfigData where
  series : ℕ
  frame : AllOrIdx
  channel : AllOrIdx
  image : SPath
  roiPath : Option SPath
  um_per_z : Option ℚ
deriving Repr

/-- The `ExportConfig` namedtuple (line 100). -/
structure ExportConfig where
  series : ℕ
  frames : List ℕ
  channels : List ℕ
  path : SPath
  name : String
  image_file : OMEImageFile
  roi : Option ImagejRoi
  um_per_z : ℚ

/-- The external collaborators `read_config` calls out to:
`ImagejRoi.fromfile` and the `OMEImageFile` constructor. -/
structure ExportEnv where
  roiFromFile : SPath → ImagejRoi
  openImage : SPath → ℕ → OMEImageFile

/-- The function `read_config` (lines 111–137).  Faithful to the nesting
in the source:
the ROI is loaded — and the frame selection overridden by its
`t_position` — only inside the `if not roi_path.is_absolute():` branch;
for an absolute `DATA.ROI` path nothing happens and `roi` stays
`None`. -/
def read_config (env : ExportEnv) (cfg_dir : SPath) (cfg_name : String)
    (cfg : ConfigData) : ExportConfig :=
  let im_series := cfg.series
  let st : Option ImagejRoi × AllOrIdx :=
    match cfg.roiPath with
    | none => (none, cfg.frame)
    | some roi_path =>
        if roi_path.isAbs then (none, cfg.frame)
        else
          let roi := env.roiFromFile (cfg_dir.join roi_path)
          (some roi, AllOrIdx.idx roi.t_position)
  let img_file := env.openImage cfg.image im_series
  { series := im_series
    frames := match st.2 with
              | AllOrIdx.all => List.range img_file.n_frames
              | AllOrIdx.idx n => [n]
    channels := match cfg.channel with
                | AllOrIdx.all => List.range img_file.n_channels
                | AllOrIdx.idx n => [n]
    path := cfg_dir
    name := cfg_name
    image_file := img_file
    roi := st.1
    um_per_z := cfg.um_per_z.getD img_file.um_per_z }

/-! ## The export driver (`export.py` lines 140–162) -/

/-- One entry `vol_timeseries[fr]`: the 3D `(z, y, x)` slice of one frame
of the 4D volume, extracted from the C-order flat data. -/
def sliceFrame (a : NDArray4) (fr : ℕ) : NDArray3 :=
  { d0 := a.d1, d1 := a.d2, d2 := a.d3
    data := (a.data.drop (fr * (a.d1 * a.d2 * a.d3))).take (a.d1 * a.d2 * a.d3) }

/-- The per-channel body of the `__main__` loop (lines 149–160): always
assemble and normalize over `range(cfg.image_file.n_frames)` — not over
`cfg.frames` — then walk `enumerate(vol_timeseries)` and encode and
write only the frames selected by `cfg.frames`.  Returns the
`(frame, encoded image)` pairs written, in order; `none` when the
normalization has no defined result. -/
def exportChannel (cfg : ExportConfig) (ch : ℕ) :
    Option (List (ℕ × VtkImageImportState)) :=
  let frames := List.range cfg.image_file.n_frames
  (bioformats_to_ndarray_zstack_timeseries cfg.image_file frames cfg.roi ch).map
    fun vol_timeseries =>
      (List.range vol_timeseries.d0).filterMap fun fr =>
        if fr ∈ cfg.frames then
          some (fr, ndarray_to_vtk_image (sliceFrame vol_timeseries fr)
                      cfg.image_file.um_per_pix cfg.um_per_z)
        else none

/-! ## Helper lemmas -/

theorem le_foldl_max (xs : List ℕ) (init : ℕ) : init ≤ xs.foldl max init := by
  induction xs generalizing init with
  | nil => exact le_rfl
  | cons x xs ih => exact le_trans (le_max_left init x) (ih (max init x))

theorem mem_le_foldl_max {a : ℕ} {xs : List ℕ} (init : ℕ) (h : a ∈ xs) :
    a ≤ xs.foldl max init := by
  induction xs generalizing init with
  | nil => cases h
  | cons x xs ih =>
    rcases List.mem_cons.mp h with rfl | h
    · exact le_trans (le_max_right init a) (le_foldl_max xs (max init a))
    · exact ih (max init x) h

/-- Every element of a list is at most its `np.max`. -/
theorem le_listMax {a : ℕ} {l : List ℕ} (h : a ∈ l) : a ≤ listMax l := by
  cases l with
  | nil => cases h
  | cons x xs =>
    rcases List.mem_cons.mp h with rfl | h
    · exact le_foldl_max xs a
    · exact mem_le_foldl_max x h

/-- Characterization of a successful normalization: the range was
nonzero and the output is the element-wise truncated rescaling. -/
theorem normalize_uint8_eq_some {a out : NDArray4} (h : normalize_uint8 a = some out) :
    listMax a.data - listMin a.data ≠ 0 ∧
    out = { a with data := a.data.map (fun v =>
      truncD64 (fdiv ⟨v - listMin a.data, 1⟩
        (fdiv ⟨listMax a.data - listMin a.data, 1⟩ ⟨255, 1⟩)) % 2 ^ 8) } := by
  unfold normalize_uint8 at h
  by_cases hp : listMax a.data - listMin a.data = 0
  · simp only [hp, if_pos rfl] at h
    exact absurd h (by simp)
  · simp only [if_neg hp, Option.some.injEq] at h
    exact ⟨hp, h.symm⟩

set_option maxRecDepth 8192 in
/-- Renormalizing a single uint8 value of a full-range volume returns
the value unchanged: `255/255.0 = 1.0` exactly, and dividing any value
below 2^53 by `1.0` and truncating is the identity.  Checked by kernel
computation over all 256 uint8 values. -/
theorem normalize_pixel_idem : ∀ v : Fin 256,
    truncD64 (fdiv ⟨v.val, 1⟩ (fdiv ⟨255, 1⟩ ⟨255, 1⟩)) % 2 ^ 8 = v.val := by decide

/-- Claim C5: Normalization is idempotent on an already-normalized volume:
for every uint8 volume whose minimum is 0 and maximum is 255, applying
the normalization step of `bioformats_to_ndarray_zstack_timeseries`
again yields an array equal to the input. -/
theorem normalize_uint8_idempotent (a : NDArray4)
    (hmin : listMin a.data = 0) (hmax : listMax a.data = 255) :
    normalize_uint8 a = some a := by
  have hmap : a.data.map (fun v =>
      truncD64 (fdiv ⟨v - listMin a.data, 1⟩
        (fdiv ⟨listMax a.data - listMin a.data, 1⟩ ⟨255, 1⟩)) % 2 ^ 8) = a.data := by
    have := List.map_congr_left (l := a.data)
      (g := fun v : ℕ => v)
      (f := fun v => truncD64 (fdiv ⟨v - listMin a.data, 1⟩
        (fdiv ⟨listMax a.data - listMin a.data, 1⟩ ⟨255, 1⟩)) % 2 ^ 8)
      (fun v hv => by
        have hle : v ≤ 255 := hmax ▸ le_listMax hv
        have := normalize_pixel_idem ⟨v, Nat.lt_succ_of_le hle⟩
        simpa [hmin, hmax] using this)
    simpa using this
  unfold normalize_uint8
  rw [if_neg (by rw [hmin, hmax]; norm_num)]
  show some { a with data := a.data.map (fun v =>
      truncD64 (fdiv ⟨v - listMin a.data, 1⟩
        (fdiv ⟨listMax a.data - listMin a.data, 1⟩ ⟨255, 1⟩)) % 2 ^ 8) } = some a
  rw [hmap]

/-- Witness for C5 at the concrete full-range uint8 volume
`[0, 255]`. -/
theorem normalize_uint8_idempotent_witness :
    listMin [0, 255] = 0 ∧ listMax [0, 255] = 255 ∧
    normalize_uint8 ⟨1, 1, 1, 2, [0, 255]⟩ = some ⟨1, 1, 1, 2, [0, 255]⟩ :=
  ⟨rfl, rfl, normalize_uint8_idempotent ⟨1, 1, 1, 2, [0, 255]⟩ rfl rfl⟩

/-- Claim C2 fails on the code as stated: for the assembled volume
`[0, 1, 4]` (lo = 0, range = 4) the element `1` maps to
`trunc(1/(4/255.0)) = trunc(63.75) = 63`, while the claimed formula
`round((v - lo)/(range/255.0))` gives 64 — `astype(np.uint8)`
truncates, it does not round. -/
theorem normalize_uint8_truncates_not_rounds :
    normalize_uint8 ⟨1, 1, 1, 3, [0, 1, 4]⟩ = some ⟨1, 1, 1, 3, [0, 63, 255]⟩ ∧
    normalize_uint8_specRound ⟨1, 1, 1, 3, [0, 1, 4]⟩ = some ⟨1, 1, 1, 3, [0, 64, 255]⟩ := by
  constructor <;> decide

/-- Claim C2 amended: after full assembly, every element of the
normalized output equals the float64 quotient
`(v - lo) / (range / 255.0)` **truncated toward zero** and cast to
unsigned 8-bit, where `lo` and `range` are the global minimum and
peak-to-peak range of the assembled volume. -/
theorem normalize_uint8_elementwise (a out : NDArray4)
    (h : normalize_uint8 a = some out) (i : ℕ) :
    out.data[i]? = (a.data[i]?).map (fun v =>
      truncD64 (fdiv ⟨v - listMin a.data, 1⟩
        (fdiv ⟨listMax a.data - listMin a.data, 1⟩ ⟨255, 1⟩)) % 2 ^ 8) := by
  obtain ⟨-, rfl⟩ := normalize_uint8_eq_some h
  exact List.getElem?_map _ _ _

/-- Witness for the amended C2 at the volume `[0, 1, 4]`, index 1. -/
theorem normalize_uint8_elementwise_witness :
    (⟨1, 1, 1, 3, [0, 63, 255]⟩ : NDArray4).data[1]? =
      ((⟨1, 1, 1, 3, [0, 1, 4]⟩ : NDArray4).data[1]?).map (fun v =>
        truncD64 (fdiv ⟨v - listMin (⟨1, 1, 1, 3, [0, 1, 4]⟩ : NDArray4).data, 1⟩
          (fdiv ⟨listMax (⟨1, 1, 1, 3, [0, 1, 4]⟩ : NDArray4).data -
            listMin (⟨1, 1, 1, 3, [0, 1, 4]⟩ : NDArray4).data, 1⟩ ⟨255, 1⟩)) % 2 ^ 8) :=
  normalize_uint8_elementwise ⟨1, 1, 1, 3, [0, 1, 4]⟩ ⟨1, 1, 1, 3, [0, 63, 255]⟩ (by decide) 1

/-- Claim C3 fails on the code: the volume `[0, 33]` has nonzero range,
yet the normalized maximum is 254, not 255 — `33/(33/255.0)` evaluates
to `254.99999999999997` in float64 (the divisor `33/255.0` was rounded
up), and `astype(np.uint8)` truncates it to 254.  The minimum is 0 as
claimed; the maximum is not 255. -/
theorem normalize_uint8_max_not_255 :
    normalize_uint8 ⟨1, 1, 1, 2, [0, 33]⟩ = some ⟨1, 1, 1, 2, [0, 254]⟩ ∧
    listMin [0, 254] = 0 ∧ listMax [0, 254] = 254 := by
  refine ⟨by decide, rfl, rfl⟩

/-- Claim C4 fails on the code: normalizing an all-constant volume (here
`[5, 5]`, `image.ptp() = 0`) evaluates `0.0 / 0.0`, which numpy turns
into NaN (it emits a RuntimeWarning rather than raising), and the
`astype(np.uint8)` cast of NaN is undefined behaviour — there is no
guard and no defined fallback output.  The model records the absence of
a defined result as `none`. -/
theorem normalize_uint8_constant_undefined :
    normalize_uint8 ⟨1, 1, 1, 2, [5, 5]⟩ = none := by decide

/-- Claim C1: whenever the volume assembler
`bioformats_to_ndarray_zstack_timeseries` returns a volume, its last
two dimensions equal the source `(height, width)` when `roi=None`,
and `(abs(roi.top - roi.bottom), abs(roi.right - roi.left))` when a ROI
is given. -/
theorem bioformats_volume_shape (img_struct : OMEImageFile) (frames : List ℕ)
    (roi : Option ImagejRoi) (channel : ℕ) (out : NDArray4)
    (h : bioformats_to_ndarray_zstack_timeseries img_struct frames roi channel = some out) :
    (roi = none → out.d2 = img_struct.height ∧ out.d3 = img_struct.width) ∧
    (∀ r, roi = some r →
      out.d2 = (r.top - r.bottom).natAbs ∧ out.d3 = (r.right - r.left).natAbs) := by
  obtain ⟨-, rfl⟩ := normalize_uint8_eq_some h
  constructor
  · rintro rfl
    simp [assembleRaw]
  · rintro r rfl
    simp [assembleRaw]

/-- Witness for C1 at the end-to-end example given in the spec: a 4×4 source
plane with the ROI `left=1, right=3, top=1, bottom=3`, whose assembled
volume has last two dimensions `(2, 2)`. -/
theorem bioformats_volume_shape_witness :
    bioformats_to_ndarray_zstack_timeseries
        ⟨4, 4, [0], 1, 1, 1, 1, fun _ _ _ y x => (4 * y + x).toNat⟩ [0]
        (some ⟨1, 3, 1, 3, 9⟩) 0 = some ⟨1, 1, 2, 2, [0, 51, 204, 255]⟩ ∧
    (⟨1, 1, 2, 2, [0, 51, 204, 255]⟩ : NDArray4).d2 = ((1 : ℤ) - 3).natAbs ∧
    (⟨1, 1, 2, 2, [0, 51, 204, 255]⟩ : NDArray4).d3 = ((3 : ℤ) - 1).natAbs :=
  ⟨by decide, (bioformats_volume_shape
      ⟨4, 4, [0], 1, 1, 1, 1, fun _ _ _ y x => (4 * y + x).toNat⟩ [0]
      (some ⟨1, 3, 1, 3, 9⟩) 0 ⟨1, 1, 2, 2, [0, 51, 204, 255]⟩ (by decide)).2
    ⟨1, 3, 1, 3, 9⟩ rfl⟩

/-- Claim C6 fails on the code: because the ROI load sits inside the
`if not roi_path.is_absolute():` branch of `read_config`, a
configuration whose `DATA.ROI` is an *absolute* path gets no ROI at all
(`roi = None`) and keeps the `DATA.frame` selection, contrary to the
claim that an absolute path is used as-is and the frame selection
overridden.  For the same configuration with a relative ROI path the
claimed behaviour does hold: the ROI (with `t_position = 7`) is loaded
and the frame selection becomes `[7]`. -/
theorem read_config_ignores_absolute_roi :
    (read_config ⟨fun _ => ⟨1, 3, 1, 3, 7⟩, fun _ _ => ⟨4, 4, [0], 5, 1, 1, 1, fun _ _ _ _ _ => 0⟩⟩
      ⟨true, ["data"]⟩ "export.cfg"
      ⟨0, AllOrIdx.idx 3, AllOrIdx.idx 0, ⟨true, ["img.tif"]⟩, some ⟨true, ["cell.roi"]⟩, none⟩).roi
        = none ∧
    (read_config ⟨fun _ => ⟨1, 3, 1, 3, 7⟩, fun _ _ => ⟨4, 4, [0], 5, 1, 1, 1, fun _ _ _ _ _ => 0⟩⟩
      ⟨true, ["data"]⟩ "export.cfg"
      ⟨0, AllOrIdx.idx 3, AllOrIdx.idx 0, ⟨true, ["img.tif"]⟩, some ⟨true, ["cell.roi"]⟩, none⟩).frames
        = [3] ∧
    (read_config ⟨fun _ => ⟨1, 3, 1, 3, 7⟩, fun _ _ => ⟨4, 4, [0], 5, 1, 1, 1, fun _ _ _ _ _ => 0⟩⟩
      ⟨true, ["data"]⟩ "export.cfg"
      ⟨0, AllOrIdx.idx 3, AllOrIdx.idx 0, ⟨true, ["img.tif"]⟩, some ⟨false, ["cell.roi"]⟩, none⟩).roi
        = some ⟨1, 3, 1, 3, 7⟩ ∧
    (read_config ⟨fun _ => ⟨1, 3, 1, 3, 7⟩, fun _ _ => ⟨4, 4, [0], 5, 1, 1, 1, fun _ _ _ _ _ => 0⟩⟩
      ⟨true, ["data"]⟩ "export.cfg"
      ⟨0, AllOrIdx.idx 3, AllOrIdx.idx 0, ⟨true, ["img.tif"]⟩, some ⟨false, ["cell.roi"]⟩, none⟩).frames
        = [7] :=
  ⟨rfl, rfl, rfl, rfl⟩

/-- Claim C7: for every 3D array shaped `(z, row, col)` with densely
packed data, `_ndarray_to_vtk_image` declares data extent and whole
extent `(1, col, 1, row, 1, z)`, spacing
`(um_per_pix, um_per_pix, um_per_z)`, exactly one scalar component
named "density" of unsigned 8-bit type, and imports the packed array
bytes, `z * row * col` of them. -/
theorem ndarray_to_vtk_image_geometry (data : NDArray3) (um_per_pix um_per_z : ℚ)
    (hlen : data.data.length = data.d0 * data.d1 * data.d2) :
    (ndarray_to_vtk_image data um_per_pix um_per_z).dataExtent
        = (1, data.d2, 1, data.d1, 1, data.d0) ∧
    (ndarray_to_vtk_image data um_per_pix um_per_z).wholeExtent
        = (1, data.d2, 1, data.d1, 1, data.d0) ∧
    (ndarray_to_vtk_image data um_per_pix um_per_z).dataSpacing
        = (um_per_pix, um_per_pix, um_per_z) ∧
    (ndarray_to_vtk_image data um_per_pix um_per_z).numberOfScalarComponents = 1 ∧
    (ndarray_to_vtk_image data um_per_pix um_per_z).scalarArrayName = "density" ∧
    (ndarray_to_vtk_image data um_per_pix um_per_z).scalarType = VtkScalarType.unsignedChar ∧
    (ndarray_to_vtk_image data um_per_pix um_per_z).importBuffer = data.data ∧
    (ndarray_to_vtk_image data um_per_pix um_per_z).importSize = data.d0 * data.d1 * data.d2 := by
  refine ⟨rfl, rfl, rfl, rfl, rfl, rfl, rfl, ?_⟩
  simpa [ndarray_to_vtk_image] using hlen

/-- Witness for C7 at the end-to-end example given in the spec: a 3×4×4 volume is
encoded with extents `(1, 4, 1, 4, 1, 3)` and a 48-byte buffer. -/
theorem ndarray_to_vtk_image_geometry_witness :
    (⟨3, 4, 4, List.replicate 48 0⟩ : NDArray3).data.length = 3 * 4 * 4 ∧
    (ndarray_to_vtk_image ⟨3, 4, 4, List.replicate 48 0⟩ 1 2).dataExtent = (1, 4, 1, 4, 1, 3) ∧
    (ndarray_to_vtk_image ⟨3, 4, 4, List.replicate 48 0⟩ 1 2).importSize = 3 * 4 * 4 :=
  ⟨by decide,
   (ndarray_to_vtk_image_geometry ⟨3, 4, 4, List.replicate 48 0⟩ 1 2 (by decide)).1,
   (ndarray_to_vtk_image_geometry ⟨3, 4, 4, List.replicate 48 0⟩ 1 2 (by decide)).2.2.2.2.2.2.2⟩

/-- The writer leaves every path other than its destination
unchanged. -/
theorem save_vtk_image_to_disk_ne (vdbSerialize : VtkImageImportState → List ℕ)
    (fs : FileSys) (img : VtkImageImportState) (filename p : String) (hp : p ≠ filename) :
    save_vtk_image_to_disk vdbSerialize fs img filename p = fs p := by
  show (if p = filename then some (vdbSerialize img)
    else (if (fs filename).isSome then (fun q => if q = filename then none else fs q) else fs) p)
      = fs p
  rw [if_neg hp]
  split
  · exact if_neg hp
  · rfl

/-- Claim C8: `_save_vtk_image_to_disk` deletes any pre-existing file at
the destination before writing, so two successive calls at the same
path leave exactly the serialized content of the second call there and leave
every other path untouched. -/
theorem save_vtk_image_overwrites (vdbSerialize : VtkImageImportState → List ℕ)
    (fs : FileSys) (img1 img2 : VtkImageImportState) (filename : String) :
    (save_vtk_image_to_disk vdbSerialize
        (save_vtk_image_to_disk vdbSerialize fs img1 filename) img2 filename) filename
      = some (vdbSerialize img2) ∧
    (∀ p, p ≠ filename →
      (save_vtk_image_to_disk vdbSerialize
          (save_vtk_image_to_disk vdbSerialize fs img1 filename) img2 filename) p = fs p) := by
  constructor
  · simp [save_vtk_image_to_disk]
  · intro p hp
    rw [save_vtk_image_to_disk_ne _ _ _ _ _ hp]
    exact save_vtk_image_to_disk_ne _ _ _ _ _ hp

/-- Witness for C8: two writes to `"a.vdb"` over an empty file system;
the destination holds the second content and `"b.vdb"` stays empty. -/
theorem save_vtk_image_overwrites_witness :
    (save_vtk_image_to_disk (fun img => img.importBuffer)
        (save_vtk_image_to_disk (fun img => img.importBuffer) (fun _ => none)
          ⟨[1], 1, VtkScalarType.unsignedChar, 1, "density", (1, 1, 1, 1, 1, 1),
            (1, 1, 1, 1, 1, 1), (1, 1, 1)⟩ "a.vdb")
        ⟨[2, 3], 2, VtkScalarType.unsignedChar, 1, "density", (1, 2, 1, 1, 1, 1),
          (1, 2, 1, 1, 1, 1), (1, 1, 1)⟩ "a.vdb") "a.vdb" = some [2, 3] ∧
    (save_vtk_image_to_disk (fun img => img.importBuffer)
        (save_vtk_image_to_disk (fun img => img.importBuffer) (fun _ => none)
          ⟨[1], 1, VtkScalarType.unsignedChar, 1, "density", (1, 1, 1, 1, 1, 1),
            (1, 1, 1, 1, 1, 1), (1, 1, 1)⟩ "a.vdb")
        ⟨[2, 3], 2, VtkScalarType.unsignedChar, 1, "density", (1, 2, 1, 1, 1, 1),
          (1, 2, 1, 1, 1, 1), (1, 1, 1)⟩ "a.vdb") "b.vdb" = none :=
  ⟨(save_vtk_image_overwrites (fun img => img.importBuffer) (fun _ => none)
      ⟨[1], 1, VtkScalarType.unsignedChar, 1, "density", (1, 1, 1, 1, 1, 1),
        (1, 1, 1, 1, 1, 1), (1, 1, 1)⟩
      ⟨[2, 3], 2, VtkScalarType.unsignedChar, 1, "density", (1, 2, 1, 1, 1, 1),
        (1, 2, 1, 1, 1, 1), (1, 1, 1)⟩ "a.vdb").1,
   (save_vtk_image_overwrites (fun img => img.importBuffer) (fun _ => none)
      ⟨[1], 1, VtkScalarType.unsignedChar, 1, "density", (1, 1, 1, 1, 1, 1),
        (1, 1, 1, 1, 1, 1), (1, 1, 1)⟩
      ⟨[2, 3], 2, VtkScalarType.unsignedChar, 1, "density", (1, 2, 1, 1, 1, 1),
        (1, 2, 1, 1, 1, 1), (1, 1, 1)⟩ "a.vdb").2 "b.vdb" (by decide)⟩

/-- Claim C9 fails on the code: the writer hands the final destination
path directly to the OpenVDB writer — there is no temporary file and no
atomic rename — so a serialization that fails partway leaves a partial
file at the destination.  Here a write of the two bytes `[9, 7]`
failing after 1 byte leaves `some [9]` at the destination: neither
nothing nor the complete new content. -/
theorem save_vtk_image_partial_file_left :
    (save_vtk_image_to_disk_failing (fun img => img.importBuffer) (fun _ => none)
        ⟨[9, 7], 2, VtkScalarType.unsignedChar, 1, "density", (1, 2, 1, 1, 1, 1),
          (1, 2, 1, 1, 1, 1), (1, 1, 1)⟩ "vol.vdb" 1) "vol.vdb" = some [9] ∧
    some [9] ≠ (none : Option (List ℕ)) ∧ [9] ≠ [9, 7] := by
  refine ⟨by simp [save_vtk_image_to_disk_failing], by decide, by decide⟩

/-- Claim C9 amended: the writer deletes any pre-existing file and then
writes in place; a write that fails after `k` bytes leaves the first
`k` bytes of the new content — a prefix of the intended file, not
necessarily the complete content or nothing — at the destination,
leaves every other path as the normal writer would, and coincides with
the normal writer whenever the write ran to completion
(`k ≥` content length). -/
theorem save_vtk_image_failing_in_place (vdbSerialize : VtkImageImportState → List ℕ)
    (fs : FileSys) (img : VtkImageImportState) (filename : String) (k : ℕ) :
    (save_vtk_image_to_disk_failing vdbSerialize fs img filename k) filename
      = some ((vdbSerialize img).take k) ∧
    List.IsPrefix ((vdbSerialize img).take k) (vdbSerialize img) ∧
    (∀ p, (vdbSerialize img).length ≤ k →
      (save_vtk_image_to_disk_failing vdbSerialize fs img filename k) p
        = (save_vtk_image_to_disk vdbSerialize fs img filename) p) := by
  refine ⟨by simp [save_vtk_image_to_disk_failing], List.take_prefix k _, ?_⟩
  intro p hk
  simp only [save_vtk_image_to_disk_failing, save_vtk_image_to_disk]
  by_cases hp : p = filename
  · simp [hp, List.take_of_length_le hk]
  · simp [hp]

/-- Witness for the amended C9: a two-byte write to `"vol.vdb"`
failing after one byte leaves `[9]`, a strict prefix of `[9, 7]`; and
with `k = 5 ≥ 2` the failing model agrees with the normal writer at the
destination. -/
theorem save_vtk_image_failing_in_place_witness :
    (save_vtk_image_to_disk_failing (fun img => img.importBuffer) (fun _ => none)
        ⟨[9, 7], 2, VtkScalarType.unsignedChar, 1, "density", (1, 2, 1, 1, 1, 1),
          (1, 2, 1, 1, 1, 1), (1, 1, 1)⟩ "vol.vdb" 1) "vol.vdb" = some ([9, 7].take 1) ∧
    (save_vtk_image_to_disk_failing (fun img => img.importBuffer) (fun _ => none)
        ⟨[9, 7], 2, VtkScalarType.unsignedChar, 1, "density", (1, 2, 1, 1, 1, 1),
          (1, 2, 1, 1, 1, 1), (1, 1, 1)⟩ "vol.vdb" 5) "vol.vdb"
      = (save_vtk_image_to_disk (fun img => img.importBuffer) (fun _ => none)
          ⟨[9, 7], 2, VtkScalarType.unsignedChar, 1, "density", (1, 2, 1, 1, 1, 1),
            (1, 2, 1, 1, 1, 1), (1, 1, 1)⟩ "vol.vdb") "vol.vdb" :=
  ⟨(save_vtk_image_failing_in_place (fun img => img.importBuffer) (fun _ => none)
      ⟨[9, 7], 2, VtkScalarType.unsignedChar, 1, "density", (1, 2, 1, 1, 1, 1),
        (1, 2, 1, 1, 1, 1), (1, 1, 1)⟩ "vol.vdb" 1).1,
   (save_vtk_image_failing_in_place (fun img => img.importBuffer) (fun _ => none)
      ⟨[9, 7], 2, VtkScalarType.unsignedChar, 1, "density", (1, 2, 1, 1, 1, 1),
        (1, 2, 1, 1, 1, 1), (1, 1, 1)⟩ "vol.vdb" 5).2.2 "vol.vdb" (by decide)⟩

/-- Claim C10: the export driver assembles and normalizes the volume over
`range(n_frames)` — all frames of the source — regardless of the
configured frame selection, which only filters the frames written; so
under two configurations that differ only in the frame selection, a
frame selected by both is written with the identical encoded volume. -/
theorem exportChannel_selection_only_filters (cfg1 cfg2 : ExportConfig)
    (himg : cfg1.image_file = cfg2.image_file) (hroi : cfg1.roi = cfg2.roi)
    (hz : cfg1.um_per_z = cfg2.um_per_z) (ch fr : ℕ)
    (h1 : fr ∈ cfg1.frames) (h2 : fr ∈ cfg2.frames)
    (o1 o2 : List (ℕ × VtkImageImportState))
    (e1 : exportChannel cfg1 ch = some o1) (e2 : exportChannel cfg2 ch = some o2)
    (img : VtkImageImportState) :
    ((fr, img) ∈ o1 ↔ (fr, img) ∈ o2) := by
  simp only [exportChannel] at e1 e2
  rw [himg, hroi, hz] at e1
  cases hvol : bioformats_to_ndarray_zstack_timeseries cfg2.image_file
      (List.range cfg2.image_file.n_frames) cfg2.roi ch with
  | none => rw [hvol] at e1; exact absurd e1 (by simp)
  | some vol =>
    rw [hvol] at e1 e2
    simp only [Option.map_some', Option.some.injEq] at e1 e2
    subst e1
    subst e2
    have key : ∀ sel : List ℕ, fr ∈ sel →
        (((fr, img) ∈ (List.range vol.d0).filterMap (fun fr' =>
            if fr' ∈ sel then
              some (fr', ndarray_to_vtk_image (sliceFrame vol fr')
                cfg2.image_file.um_per_pix cfg2.um_per_z)
            else none)) ↔
          (fr < vol.d0 ∧ img = ndarray_to_vtk_image (sliceFrame vol fr)
            cfg2.image_file.um_per_pix cfg2.um_per_z)) := by
      intro sel hsel
      constructor
      · intro hm
        obtain ⟨a, ha, hfa⟩ := List.mem_filterMap.mp hm
        by_cases hin : a ∈ sel
        · rw [if_pos hin, Option.some.injEq, Prod.mk.injEq] at hfa
          obtain ⟨rfl, rfl⟩ := hfa
          exact ⟨List.mem_range.mp ha, rfl⟩
        · rw [if_neg hin] at hfa
          cases hfa
      · rintro ⟨hlt, rfl⟩
        exact List.mem_filterMap.mpr ⟨fr, List.mem_range.mpr hlt, by rw [if_pos hsel]⟩
    exact (key cfg1.frames h1).trans (key cfg2.frames h2).symm

/-- Witness for C10: a two-frame source exported once with `frames=[0]`
and once with `frames=[0,1]`; the encoded volume of frame 0 appears in both
output lists. -/
theorem exportChannel_selection_only_filters_witness :
    ((0, (⟨[0, 255], 2, VtkScalarType.unsignedChar, 1, "density", (1, 2, 1, 1, 1, 1),
        (1, 2, 1, 1, 1, 1), (1, 1, 1)⟩ : VtkImageImportState)) ∈
      [(0, (⟨[0, 255], 2, VtkScalarType.unsignedChar, 1, "density", (1, 2, 1, 1, 1, 1),
        (1, 2, 1, 1, 1, 1), (1, 1, 1)⟩ : VtkImageImportState))] ↔
     (0, (⟨[0, 255], 2, VtkScalarType.unsignedChar, 1, "density", (1, 2, 1, 1, 1, 1),
        (1, 2, 1, 1, 1, 1), (1, 1, 1)⟩ : VtkImageImportState)) ∈
      [(0, (⟨[0, 255], 2, VtkScalarType.unsignedChar, 1, "density", (1, 2, 1, 1, 1, 1),
        (1, 2, 1, 1, 1, 1), (1, 1, 1)⟩ : VtkImageImportState)),
       (1, (⟨[0, 255], 2, VtkScalarType.unsignedChar, 1, "density", (1, 2, 1, 1, 1, 1),
        (1, 2, 1, 1, 1, 1), (1, 1, 1)⟩ : VtkImageImportState))]) :=
  exportChannel_selection_only_filters
    ⟨0, [0], [0], ⟨true, []⟩, "a.cfg", ⟨2, 1, [0], 2, 1, 1, 1, fun _ _ _ _ x => (255 * x).toNat⟩,
      none, 1⟩
    ⟨0, [0, 1], [0], ⟨true, []⟩, "a.cfg", ⟨2, 1, [0], 2, 1, 1, 1, fun _ _ _ _ x => (255 * x).toNat⟩,
      none, 1⟩
    rfl rfl rfl 0 0 (by decide) (by decide) _ _ rfl rfl _
